import Mathlib

/-!
Verification of the speculative-decoding engine
(`src/engine/speculative-decoding.ts`, class `SpeculativeDecodingEngine`).

The backend (`webllm.MLCEngine`) is opaque: within one `generate()` call every
`forwardTokensAndSample` invocation on a given model, every `getMessage` call
and every `performance.now()` reading is modelled by a call-indexed stream.
Any concrete backend behaviour during one run is captured by some choice of
streams, and any choice of streams is realisable by a backend, so theorems
quantified over `Backend` cover all backend behaviours and concrete streams
give genuine executions.

The `while` loop of `generate()` is embedded with a fuel parameter; `none`
means the fuel ran out before the loop reached one of its exit conditions.
`abort()` flips the engine's `aborted` flag from outside the loop; since the
flag is only ever set to `true` by `abort()` and is read at the top of each
round, the value observed at round `k` is modelled by a schedule
`sched : Nat → Bool` (monotone schedules correspond to real abort timings).
-/

namespace SpecDec

/-- The `EOS_TOKEN_IDS` set (speculative-decoding.ts lines 116-122). -/
def EOS_TOKEN_IDS : List Nat := [0, 1, 2, 128001, 128009]

/-- `SpeculativeConfig` (lines 23-32). `temperature` and `acceptanceThreshold`
are forwarded to the backend only. -/
structure SpeculativeConfig where
  draftLength : Nat
  maxTokens : Nat
  temperature : Rat
  acceptanceThreshold : Rat
deriving Repr, DecidableEq

/-- `DEFAULT_SPECULATIVE_CONFIG` (lines 34-39). -/
def DEFAULT_SPECULATIVE_CONFIG : SpeculativeConfig :=
  { draftLength := 5, maxTokens := 2048, temperature := 7 / 10, acceptanceThreshold := 0 }

/-- `SpeculativeStats` (lines 77-89). -/
structure SpeculativeStats where
  totalTokens : Nat
  acceptedTokens : Nat
  rejectedTokens : Nat
  draftRounds : Nat
  avgAcceptanceLength : Rat
  tokensPerSecond : Rat
  estimatedSpeedup : Rat
  elapsedMs : Rat
deriving Repr, DecidableEq

/-- `emptyStats()` (lines 91-102). -/
def emptyStats : SpeculativeStats :=
  { totalTokens := 0, acceptedTokens := 0, rejectedTokens := 0, draftRounds := 0,
    avgAcceptanceLength := 0, tokensPerSecond := 0, estimatedSpeedup := 1, elapsedMs := 0 }

/-- Opaque backend for one `generate()` run. `draftTok k inputIds p` is the
token returned by the k-th `forwardTokensAndSample` call addressed to the
draft model (arguments mirror the call site), `targetTok` likewise for the
target model, `message k` is the accumulated text (as a character-code list)
returned by the k-th `getMessage` call, and `clock k` is the k-th
`performance.now()` reading. -/
structure Backend where
  draftTok : Nat → List Nat → Bool → Nat
  targetTok : Nat → List Nat → Bool → Nat
  message : Nat → List Nat
  clock : Nat → Rat

/-- Outcome of the draft phase of one round. -/
structure DraftResult where
  draftTokens : List Nat
  draftHitEos : Bool
  calls : Nat
deriving Repr, DecidableEq

/-- Draft phase (lines 230-246): sample up to `draftLength` tokens from the
draft model, feeding the last sampled token back in; stop early on EOS.
The recursion counter is the number of remaining loop iterations
(`cfg.draftLength - i`); `dIdx` is the index of the next draft-model call. -/
def draftLoop (be : Backend) (dIdx : Nat) (acc : List Nat) : Nat → DraftResult
  | 0 => { draftTokens := acc, draftHitEos := false, calls := 0 }
  | n + 1 =>
    let inputIds := if 0 < acc.length then [acc.getLastD 0] else []
    let token := be.draftTok dIdx inputIds acc.isEmpty
    if token ∈ EOS_TOKEN_IDS then
      { draftTokens := acc, draftHitEos := true, calls := 1 }
    else
      let r := draftLoop be (dIdx + 1) (acc ++ [token]) n
      { draftTokens := r.draftTokens, draftHitEos := r.draftHitEos, calls := r.calls + 1 }

/-- The target-model verification sample for position `i` (lines 256-262):
position 0 uses no input tokens and a fresh continuation, position `i > 0`
feeds draft token `i - 1`; `tIdx0` is the target-model call index at which
the verify phase started (one call is made per verified position). -/
def targetAt (be : Backend) (draft : List Nat) (tIdx0 i : Nat) : Nat :=
  be.targetTok (tIdx0 + i) (if i = 0 then [] else [draft.getD (i - 1) 0]) (i == 0)

/-- Outcome of the verify phase of one round. `matched` counts exact-match
acceptances, `rejectedAdd` the amount added to `stats.rejectedTokens`,
`replacementPushed` whether a mismatching non-EOS target token was pushed,
`calls` the number of target-model calls made. -/
structure VerifyResult where
  accepted : List Nat
  matched : Nat
  rejectedAdd : Nat
  replacementPushed : Bool
  calls : Nat
deriving Repr, DecidableEq

/-- Verify phase (lines 254-276): for each draft position in order, sample the
target model; an exact match is accepted, the first mismatch pushes the
target's token unless it is EOS, adds the remaining draft count to the
rejected counter and stops. The second argument is the current position `i`,
the third the number of remaining positions (`draft.length - i` at call
sites). -/
def verifyLoop (be : Backend) (draft : List Nat) (tIdx0 : Nat) : Nat → Nat → VerifyResult
  | _, 0 =>
    { accepted := [], matched := 0, rejectedAdd := 0, replacementPushed := false, calls := 0 }
  | i, n + 1 =>
    let targetToken := targetAt be draft tIdx0 i
    if targetToken = draft.getD i 0 then
      let r := verifyLoop be draft tIdx0 (i + 1) n
      { accepted := targetToken :: r.accepted, matched := r.matched + 1,
        rejectedAdd := r.rejectedAdd, replacementPushed := r.replacementPushed,
        calls := r.calls + 1 }
    else
      { accepted := if targetToken ∈ EOS_TOKEN_IDS then [] else [targetToken],
        matched := 0, rejectedAdd := draft.length - i,
        replacementPushed := decide (targetToken ∉ EOS_TOKEN_IDS), calls := 1 }

/-- Everything one iteration of the round loop observes about a round. -/
structure RoundResult where
  draftTokens : List Nat
  draftHitEos : Bool
  accepted : List Nat
  matched : Nat
  rejectedAdd : Nat
  replacementPushed : Bool
  bonusSampled : Bool
  bonusAccepted : Bool
  draftCalls : Nat
  targetCalls : Nat
deriving Repr, DecidableEq

/-- One round of `generate()` (lines 229-289): draft phase; if no draft token
was produced the round is over (the loop breaks); otherwise verify phase, then
bonus sampling when the accepted list is as long as the draft list and the
draft did not hit EOS — the bonus token is kept unless it is EOS. -/
def specRound (be : Backend) (cfg : SpeculativeConfig) (dIdx tIdx : Nat) : RoundResult :=
  let d := draftLoop be dIdx [] cfg.draftLength
  if d.draftTokens.isEmpty then
    { draftTokens := d.draftTokens, draftHitEos := d.draftHitEos, accepted := [],
      matched := 0, rejectedAdd := 0, replacementPushed := false,
      bonusSampled := false, bonusAccepted := false,
      draftCalls := d.calls, targetCalls := 0 }
  else
    let v := verifyLoop be d.draftTokens tIdx 0 d.draftTokens.length
    if v.accepted.length = d.draftTokens.length ∧ d.draftHitEos = false then
      let bonusToken := be.targetTok (tIdx + v.calls) [d.draftTokens.getLastD 0] false
      if bonusToken ∈ EOS_TOKEN_IDS then
        { draftTokens := d.draftTokens, draftHitEos := d.draftHitEos, accepted := v.accepted,
          matched := v.matched, rejectedAdd := v.rejectedAdd,
          replacementPushed := v.replacementPushed,
          bonusSampled := true, bonusAccepted := false,
          draftCalls := d.calls, targetCalls := v.calls + 1 }
      else
        { draftTokens := d.draftTokens, draftHitEos := d.draftHitEos,
          accepted := v.accepted ++ [bonusToken],
          matched := v.matched, rejectedAdd := v.rejectedAdd,
          replacementPushed := v.replacementPushed,
          bonusSampled := true, bonusAccepted := true,
          draftCalls := d.calls, targetCalls := v.calls + 1 }
    else
      { draftTokens := d.draftTokens, draftHitEos := d.draftHitEos, accepted := v.accepted,
        matched := v.matched, rejectedAdd := v.rejectedAdd,
        replacementPushed := v.replacementPushed,
        bonusSampled := false, bonusAccepted := false,
        draftCalls := d.calls, targetCalls := v.calls }

/-- Recomputation of the derived statistics (lines 304-310 and 320-325):
`elapsedMs` from the latest clock reading, `tokensPerSecond` guarded against a
zero elapsed time, `avgAcceptanceLength` guarded against zero rounds, and
`estimatedSpeedup = max(1, avgAcceptanceLength)`. -/
def recomputeDerived (s : SpeculativeStats) (elapsed : Rat) : SpeculativeStats :=
  let s1 := { s with elapsedMs := elapsed }
  let s2 := { s1 with
    tokensPerSecond := if 0 < s1.elapsedMs then ((s1.totalTokens : Rat) / s1.elapsedMs) * 1000 else 0 }
  let s3 := { s2 with
    avgAcceptanceLength :=
      if 0 < s2.draftRounds then (s2.acceptedTokens : Rat) / (s2.draftRounds : Rat) else 0 }
  { s3 with estimatedSpeedup := max 1 s3.avgAcceptanceLength }

/-- Mutable state of one `generate()` call between rounds: the running full
text, the generated-token counter, the stats object, the per-stream call
indices, and the list of stats snapshots handed to the progress callback so
far. -/
structure GenState where
  fullText : List Nat
  totalGenerated : Nat
  stats : SpeculativeStats
  dIdx : Nat
  tIdx : Nat
  mIdx : Nat
  cIdx : Nat
  trace : List SpeculativeStats
deriving Repr

/-- The body of one iteration of the round loop of `generate()`
(lines 227-316): bump `draftRounds`, run the round; break (`false`) if no
draft token was produced; fold the round's accepted/rejected counts into the
stats; break if the accepted list is empty; read the target model's
accumulated message and, if it grew, advance the full text and token count,
recompute derived stats and emit them; break if the draft hit EOS, otherwise
continue (`true`). -/
def roundStep (be : Backend) (cfg : SpeculativeConfig) (startTime : Rat)
    (st : GenState) : GenState × Bool :=
  let r := specRound be cfg st.dIdx st.tIdx
  let stats1 := { st.stats with draftRounds := st.stats.draftRounds + 1 }
  let st1 := { st with stats := stats1,
                       dIdx := st.dIdx + r.draftCalls, tIdx := st.tIdx + r.targetCalls }
  if r.draftTokens.isEmpty then (st1, false)
  else
    let stats2 := { stats1 with
      acceptedTokens := stats1.acceptedTokens + r.matched + (if r.bonusAccepted then 1 else 0),
      rejectedTokens := stats1.rejectedTokens + r.rejectedAdd }
    let st2 := { st1 with stats := stats2 }
    if r.accepted.isEmpty then (st2, false)
    else
      let currentMessage := be.message st2.mIdx
      let newText := currentMessage.drop st2.fullText.length
      let st3 :=
        if newText.isEmpty then { st2 with mIdx := st2.mIdx + 1 }
        else
          let newTotal := st2.totalGenerated + r.accepted.length
          let elapsed := be.clock st2.cIdx - startTime
          let stats3 := recomputeDerived { stats2 with totalTokens := newTotal } elapsed
          { st2 with fullText := currentMessage, totalGenerated := newTotal,
                     stats := stats3, mIdx := st2.mIdx + 1, cIdx := st2.cIdx + 1,
                     trace := st2.trace ++ [stats3] }
      (st3, !r.draftHitEos)

/-- The round loop of `generate()` (lines 226-317), with fuel. `abortedAt k`
is the value of `this.aborted` observed by the `while` condition before round
`k`; the loop runs while the generated-token count is below `maxTokens` and
that flag is unset, executing `roundStep` each iteration until a break. -/
def genLoop (be : Backend) (abortedAt : Nat → Bool) (cfg : SpeculativeConfig)
    (startTime : Rat) : Nat → Nat → GenState → Option GenState
  | 0, _, _ => none
  | fuel + 1, k, st =>
    if st.totalGenerated < cfg.maxTokens ∧ abortedAt k = false then
      let p := roundStep be cfg startTime st
      if p.2 then genLoop be abortedAt cfg startTime fuel (k + 1) p.1 else some p.1
    else some st

/-- Error taxonomy relevant to the verified claims. -/
inductive GenError where
  | notLoaded
deriving Repr, DecidableEq

/-- The engine fields `generate()`, `resetChat()` and `abort()` read
(lines 127-132): presence of a backend engine, the resident model ids, and
the abort flag. -/
structure EngineState where
  hasEngine : Bool
  draftModelId : Option String
  targetModelId : Option String
  aborted : Bool
deriving Repr, DecidableEq

/-- Result of a completed `generate()` call: final text and stats, the list of
stats snapshots emitted to the progress callback (the initial `generating`
emission passes `emptyStats`, each materialised round emits the updated stats,
and the final `ready` emission passes the final stats), and the number of
draft-model and target-model `forwardTokensAndSample` calls made. -/
structure GenOutput where
  text : List Nat
  stats : SpeculativeStats
  trace : List SpeculativeStats
  dCalls : Nat
  tCalls : Nat
deriving Repr, DecidableEq

/-- State of the round loop when `generate()` enters it. -/
def initialGenState : GenState :=
  { fullText := [], totalGenerated := 0, stats := emptyStats,
    dIdx := 0, tIdx := 0, mIdx := 0, cIdx := 1, trace := [emptyStats] }

/-- `generate()` (lines 192-329). Throws `NotLoaded` unless an engine and both
model ids are resident; otherwise clears the abort flag, reads the start time,
primes both models (an opaque backend interaction subsumed by the streams),
runs the round loop, and recomputes the final stats once more. `sched k` says
whether an in-flight `abort()` call has happened by the top of round `k`;
`none` means the fuel ran out. -/
def generate (eng : EngineState) (be : Backend) (sched : Nat → Bool)
    (cfg : SpeculativeConfig) (fuel : Nat) : Option (Except GenError GenOutput) :=
  if eng.hasEngine = false ∨ eng.draftModelId = none ∨ eng.targetModelId = none then
    some (Except.error GenError.notLoaded)
  else
    let eng1 := { eng with aborted := false }
    let startTime := be.clock 0
    match genLoop be (fun k => eng1.aborted || sched k) cfg startTime fuel 0 initialGenState with
    | none => none
    | some st =>
      let elapsed := be.clock st.cIdx - startTime
      let finalStats := recomputeDerived st.stats elapsed
      some (Except.ok { text := st.fullText, stats := finalStats,
                        trace := st.trace ++ [finalStats],
                        dCalls := st.dIdx, tCalls := st.tIdx })

/-- Extracts the output of a successful `generate` run; the fallback value is
returned only when the run did not succeed. Used to name the output of
concrete executions. -/
def okOutput (r : Option (Except GenError GenOutput)) : GenOutput :=
  match r with
  | some (Except.ok o) => o
  | _ => { text := [], stats := emptyStats, trace := [], dCalls := 0, tCalls := 0 }

/-- `abort()` (lines 331-333): set the abort flag. -/
def abort (eng : EngineState) : EngineState :=
  { eng with aborted := true }

/-- `resetChat()` (lines 348-355): reset the backend conversation for the
draft model when an engine and a draft id are present, likewise for the
target model; returns the ids whose conversations were reset. The method has
no not-loaded check of its own and never fails on its own account (backend
failures are outside its control flow). -/
def resetChat (eng : EngineState) : Except GenError (List String) :=
  Except.ok
    ((if eng.hasEngine = true ∧ eng.draftModelId.isSome then [eng.draftModelId.getD ""] else []) ++
     (if eng.hasEngine = true ∧ eng.targetModelId.isSome then [eng.targetModelId.getD ""] else []))

/-! ### Verify-phase lemmas -/

lemma verifyLoop_zero (be : Backend) (d : List Nat) (t0 i : Nat) :
    verifyLoop be d t0 i 0 =
      { accepted := [], matched := 0, rejectedAdd := 0, replacementPushed := false, calls := 0 } :=
  rfl

lemma verifyLoop_succ_match (be : Backend) (d : List Nat) (t0 i n : Nat)
    (h : targetAt be d t0 i = d.getD i 0) :
    verifyLoop be d t0 i (n + 1) =
      { accepted := targetAt be d t0 i :: (verifyLoop be d t0 (i + 1) n).accepted,
        matched := (verifyLoop be d t0 (i + 1) n).matched + 1,
        rejectedAdd := (verifyLoop be d t0 (i + 1) n).rejectedAdd,
        replacementPushed := (verifyLoop be d t0 (i + 1) n).replacementPushed,
        calls := (verifyLoop be d t0 (i + 1) n).calls + 1 } := by
  simp [verifyLoop, h]

lemma verifyLoop_succ_mismatch (be : Backend) (d : List Nat) (t0 i n : Nat)
    (h : targetAt be d t0 i ≠ d.getD i 0) :
    verifyLoop be d t0 i (n + 1) =
      { accepted := if targetAt be d t0 i ∈ EOS_TOKEN_IDS then [] else [targetAt be d t0 i],
        matched := 0, rejectedAdd := d.length - i,
        replacementPushed := decide (targetAt be d t0 i ∉ EOS_TOKEN_IDS), calls := 1 } := by
  simp only [verifyLoop]
  rw [if_neg h]

/-- The accepted list built by the verify phase holds the exact matches plus,
possibly, the one pushed replacement token. -/
lemma verifyLoop_length (be : Backend) (d : List Nat) (t0 : Nat) : ∀ n i,
    (verifyLoop be d t0 i n).accepted.length =
      (verifyLoop be d t0 i n).matched +
        (if (verifyLoop be d t0 i n).replacementPushed then 1 else 0)
  | 0, i => by simp [verifyLoop_zero]
  | n + 1, i => by
    by_cases h : targetAt be d t0 i = d.getD i 0
    · have ih := verifyLoop_length be d t0 n (i + 1)
      rw [verifyLoop_succ_match be d t0 i n h]
      cases hb : (verifyLoop be d t0 (i + 1) n).replacementPushed <;>
        simp [hb] at ih ⊢ <;> omega
    · rw [verifyLoop_succ_mismatch be d t0 i n h]
      by_cases he : targetAt be d t0 i ∈ EOS_TOKEN_IDS <;> simp [he]

/-- The verify phase accepts at most one token per draft position. -/
lemma verifyLoop_le (be : Backend) (d : List Nat) (t0 : Nat) : ∀ n i,
    (verifyLoop be d t0 i n).matched +
      (if (verifyLoop be d t0 i n).replacementPushed then 1 else 0) ≤ n
  | 0, i => by simp [verifyLoop_zero]
  | n + 1, i => by
    by_cases h : targetAt be d t0 i = d.getD i 0
    · have ih := verifyLoop_le be d t0 n (i + 1)
      rw [verifyLoop_succ_match be d t0 i n h]
      cases hb : (verifyLoop be d t0 (i + 1) n).replacementPushed <;>
        simp [hb] at ih ⊢ <;> omega
    · rw [verifyLoop_succ_mismatch be d t0 i n h]
      by_cases he : targetAt be d t0 i ∈ EOS_TOKEN_IDS <;> simp [he]

/-- Behaviour of the verify phase when the first mismatch is at position `m`:
`m - i` exact matches, `d.length - m` added rejections, a replacement pushed
iff the target's token is not EOS, and `m - i + 1` target calls. -/
lemma verifyLoop_mismatch (be : Backend) (d : List Nat) (t0 : Nat) : ∀ n i m, i ≤ m → m < i + n →
    (∀ j, i ≤ j → j < m → targetAt be d t0 j = d.getD j 0) →
    targetAt be d t0 m ≠ d.getD m 0 →
    (verifyLoop be d t0 i n).matched = m - i ∧
    (verifyLoop be d t0 i n).rejectedAdd = d.length - m ∧
    (verifyLoop be d t0 i n).replacementPushed = decide (targetAt be d t0 m ∉ EOS_TOKEN_IDS) ∧
    (verifyLoop be d t0 i n).calls = m - i + 1
  | 0, i, m, him, hm, _, _ => absurd hm (by omega)
  | n + 1, i, m, him, hm, hmatch, hmis => by
    rcases Nat.eq_or_lt_of_le him with rfl | hlt
    · rw [verifyLoop_succ_mismatch be d t0 i n hmis]
      simp
    · have h0 : targetAt be d t0 i = d.getD i 0 := hmatch i le_rfl hlt
      rw [verifyLoop_succ_match be d t0 i n h0]
      obtain ⟨h1, h2, h3, h4⟩ :=
        verifyLoop_mismatch be d t0 n (i + 1) m hlt (by omega)
          (fun j hj1 hj2 => hmatch j (by omega) hj2) hmis
      refine ⟨?_, ?_, ?_, ?_⟩ <;> simp [h1, h2, h3, h4] <;> omega

/-- Behaviour of the verify phase when every compared position matches. -/
lemma verifyLoop_allMatch (be : Backend) (d : List Nat) (t0 : Nat) : ∀ n i,
    (∀ j, i ≤ j → j < i + n → targetAt be d t0 j = d.getD j 0) →
    (verifyLoop be d t0 i n).matched = n ∧
    (verifyLoop be d t0 i n).rejectedAdd = 0 ∧
    (verifyLoop be d t0 i n).replacementPushed = false ∧
    (verifyLoop be d t0 i n).calls = n
  | 0, i, _ => by simp [verifyLoop_zero]
  | n + 1, i, hmatch => by
    have h0 : targetAt be d t0 i = d.getD i 0 := hmatch i le_rfl (by omega)
    rw [verifyLoop_succ_match be d t0 i n h0]
    obtain ⟨h1, h2, h3, h4⟩ :=
      verifyLoop_allMatch be d t0 n (i + 1) (fun j hj1 hj2 => hmatch j (by omega) (by omega))
    refine ⟨?_, ?_, ?_, ?_⟩ <;> simp [h1, h2, h3, h4]

/-- No EOS token is ever appended to the verify phase's accepted list,
provided (as the draft phase guarantees) the draft tokens are EOS-free. -/
lemma verifyLoop_mem (be : Backend) (d : List Nat) (t0 : Nat) : ∀ n i, i + n ≤ d.length →
    (∀ t ∈ d, t ∉ EOS_TOKEN_IDS) →
    ∀ t ∈ (verifyLoop be d t0 i n).accepted, t ∉ EOS_TOKEN_IDS
  | 0, i, _, _, t, ht => by simp [verifyLoop_zero] at ht
  | n + 1, i, hle, hd, t, ht => by
    by_cases h : targetAt be d t0 i = d.getD i 0
    · rw [verifyLoop_succ_match be d t0 i n h] at ht
      simp only [List.mem_cons] at ht
      rcases ht with rfl | ht
      · rw [h]
        have hi : i < d.length := by omega
        rw [List.getD_eq_getElem d 0 hi]
        exact hd _ (List.getElem_mem hi)
      · exact verifyLoop_mem be d t0 n (i + 1) (by omega) hd t ht
    · rw [verifyLoop_succ_mismatch be d t0 i n h] at ht
      by_cases he : targetAt be d t0 i ∈ EOS_TOKEN_IDS
      · simp [he] at ht
      · simp [he] at ht
        subst ht
        exact he

/-! ### Draft-phase lemmas -/

lemma draftLoop_zero (be : Backend) (dIdx : Nat) (acc : List Nat) :
    draftLoop be dIdx acc 0 = { draftTokens := acc, draftHitEos := false, calls := 0 } :=
  rfl

/-- The draft phase produces at most `draftLength` tokens. -/
lemma draftLoop_length (be : Backend) : ∀ n dIdx (acc : List Nat),
    (draftLoop be dIdx acc n).draftTokens.length ≤ acc.length + n
  | 0, dIdx, acc => by simp [draftLoop_zero]
  | n + 1, dIdx, acc => by
    simp only [draftLoop]
    set tok := be.draftTok dIdx (if 0 < acc.length then [acc.getLastD 0] else []) acc.isEmpty
      with htok
    by_cases h : tok ∈ EOS_TOKEN_IDS
    · rw [if_pos h]
      dsimp only
      omega
    · rw [if_neg h]
      have ih := draftLoop_length be n (dIdx + 1) (acc ++ [tok])
      simp only [List.length_append, List.length_singleton] at ih
      dsimp only
      omega

/-- Every token the draft phase stores is either carried over from the
accumulator or is not an EOS token. -/
lemma draftLoop_mem (be : Backend) : ∀ n dIdx (acc : List Nat) t,
    t ∈ (draftLoop be dIdx acc n).draftTokens → t ∈ acc ∨ t ∉ EOS_TOKEN_IDS
  | 0, dIdx, acc, t => fun h => Or.inl h
  | n + 1, dIdx, acc, t => by
    simp only [draftLoop]
    set tok := be.draftTok dIdx (if 0 < acc.length then [acc.getLastD 0] else []) acc.isEmpty
      with htok
    by_cases h : tok ∈ EOS_TOKEN_IDS
    · rw [if_pos h]
      exact fun ht => Or.inl ht
    · rw [if_neg h]
      dsimp only
      intro ht
      rcases draftLoop_mem be n (dIdx + 1) (acc ++ [tok]) t ht with hmem | hout
      · rcases List.mem_append.1 hmem with hacc | hnew
        · exact Or.inl hacc
        · right
          rw [List.mem_singleton.1 hnew]
          exact h
      · exact Or.inr hout

/-- If the very first token the draft phase samples is EOS, the phase records
`draftHitEos` with an empty draft list after a single draft-model call. -/
lemma draftLoop_eos_first (be : Backend) (dIdx n : Nat)
    (h : be.draftTok dIdx [] true ∈ EOS_TOKEN_IDS) :
    draftLoop be dIdx [] (n + 1) = { draftTokens := [], draftHitEos := true, calls := 1 } := by
  simp [draftLoop, h]

/-! ### Round-level lemmas -/

lemma specRound_empty (be : Backend) (cfg : SpeculativeConfig) (dIdx tIdx : Nat)
    (h : (draftLoop be dIdx [] cfg.draftLength).draftTokens.isEmpty = true) :
    specRound be cfg dIdx tIdx =
      { draftTokens := (draftLoop be dIdx [] cfg.draftLength).draftTokens,
        draftHitEos := (draftLoop be dIdx [] cfg.draftLength).draftHitEos, accepted := [],
        matched := 0, rejectedAdd := 0, replacementPushed := false,
        bonusSampled := false, bonusAccepted := false,
        draftCalls := (draftLoop be dIdx [] cfg.draftLength).calls, targetCalls := 0 } := by
  simp only [specRound]
  rw [if_pos h]

lemma specRound_draftTokens (be : Backend) (cfg : SpeculativeConfig) (dIdx tIdx : Nat) :
    (specRound be cfg dIdx tIdx).draftTokens =
      (draftLoop be dIdx [] cfg.draftLength).draftTokens := by
  simp only [specRound]
  repeat' split
  all_goals rfl

lemma specRound_draftHitEos (be : Backend) (cfg : SpeculativeConfig) (dIdx tIdx : Nat) :
    (specRound be cfg dIdx tIdx).draftHitEos =
      (draftLoop be dIdx [] cfg.draftLength).draftHitEos := by
  simp only [specRound]
  repeat' split
  all_goals rfl

lemma specRound_matched (be : Backend) (cfg : SpeculativeConfig) (dIdx tIdx : Nat)
    (h : (draftLoop be dIdx [] cfg.draftLength).draftTokens.isEmpty = false) :
    (specRound be cfg dIdx tIdx).matched =
      (verifyLoop be (draftLoop be dIdx [] cfg.draftLength).draftTokens tIdx 0
        (draftLoop be dIdx [] cfg.draftLength).draftTokens.length).matched := by
  simp only [specRound]
  rw [if_neg (by simp [h])]
  repeat' split
  all_goals rfl

lemma specRound_rejectedAdd (be : Backend) (cfg : SpeculativeConfig) (dIdx tIdx : Nat)
    (h : (draftLoop be dIdx [] cfg.draftLength).draftTokens.isEmpty = false) :
    (specRound be cfg dIdx tIdx).rejectedAdd =
      (verifyLoop be (draftLoop be dIdx [] cfg.draftLength).draftTokens tIdx 0
        (draftLoop be dIdx [] cfg.draftLength).draftTokens.length).rejectedAdd := by
  simp only [specRound]
  rw [if_neg (by simp [h])]
  repeat' split
  all_goals rfl

lemma specRound_replacementPushed (be : Backend) (cfg : SpeculativeConfig) (dIdx tIdx : Nat)
    (h : (draftLoop be dIdx [] cfg.draftLength).draftTokens.isEmpty = false) :
    (specRound be cfg dIdx tIdx).replacementPushed =
      (verifyLoop be (draftLoop be dIdx [] cfg.draftLength).draftTokens tIdx 0
        (draftLoop be dIdx [] cfg.draftLength).draftTokens.length).replacementPushed := by
  simp only [specRound]
  rw [if_neg (by simp [h])]
  repeat' split
  all_goals rfl

lemma specRound_bonusSampled (be : Backend) (cfg : SpeculativeConfig) (dIdx tIdx : Nat)
    (h : (draftLoop be dIdx [] cfg.draftLength).draftTokens.isEmpty = false) :
    ((specRound be cfg dIdx tIdx).bonusSampled = true ↔
      ((verifyLoop be (draftLoop be dIdx [] cfg.draftLength).draftTokens tIdx 0
          (draftLoop be dIdx [] cfg.draftLength).draftTokens.length).accepted.length =
        (draftLoop be dIdx [] cfg.draftLength).draftTokens.length ∧
       (draftLoop be dIdx [] cfg.draftLength).draftHitEos = false)) := by
  simp only [specRound]
  rw [if_neg (by simp [h])]
  split
  · next hcond =>
    split
    · simpa using hcond
    · simpa using hcond
  · next hcond => simpa using hcond

/-- A round drafts at most `cfg.draftLength` tokens. -/
lemma specRound_draft_length_le (be : Backend) (cfg : SpeculativeConfig) (dIdx tIdx : Nat) :
    (specRound be cfg dIdx tIdx).draftTokens.length ≤ cfg.draftLength := by
  rw [specRound_draftTokens]
  have := draftLoop_length be cfg.draftLength dIdx []
  simpa using this

/-- A round accepts at most `cfg.draftLength + 1` tokens. -/
lemma specRound_accepted_length_le (be : Backend) (cfg : SpeculativeConfig) (dIdx tIdx : Nat) :
    (specRound be cfg dIdx tIdx).accepted.length ≤ cfg.draftLength + 1 := by
  have hdl := draftLoop_length be cfg.draftLength dIdx []
  simp only [List.length_nil, Nat.zero_add] at hdl
  have hlen : (verifyLoop be (draftLoop be dIdx [] cfg.draftLength).draftTokens tIdx 0
      (draftLoop be dIdx [] cfg.draftLength).draftTokens.length).accepted.length ≤
      (draftLoop be dIdx [] cfg.draftLength).draftTokens.length := by
    rw [verifyLoop_length]
    exact verifyLoop_le be _ tIdx _ 0
  simp only [specRound]
  repeat' split
  all_goals dsimp only
  · simp
  · omega
  · simp only [List.length_append, List.length_singleton]
    omega
  · omega

/-- No EOS token id is ever appended to a round's accepted list. -/
lemma specRound_accepted_not_eos (be : Backend) (cfg : SpeculativeConfig) (dIdx tIdx : Nat) :
    ∀ t ∈ (specRound be cfg dIdx tIdx).accepted, t ∉ EOS_TOKEN_IDS := by
  have hd : ∀ t ∈ (draftLoop be dIdx [] cfg.draftLength).draftTokens, t ∉ EOS_TOKEN_IDS := by
    intro t ht
    rcases draftLoop_mem be cfg.draftLength dIdx [] t ht with h | h
    · simp at h
    · exact h
  have hv := verifyLoop_mem be (draftLoop be dIdx [] cfg.draftLength).draftTokens tIdx
    (draftLoop be dIdx [] cfg.draftLength).draftTokens.length 0 (by omega) hd
  simp only [specRound]
  split
  · intro t ht
    simp at ht
  · split
    · split
      · exact hv
      · next hb =>
        intro t ht
        rcases List.mem_append.1 ht with h1 | h1
        · exact hv t h1
        · rw [List.mem_singleton.1 h1]
          exact hb
    · exact hv

/-! ### Loop-body lemmas -/

lemma recomputeDerived_totalTokens (s : SpeculativeStats) (e : Rat) :
    (recomputeDerived s e).totalTokens = s.totalTokens := rfl

lemma recomputeDerived_draftRounds (s : SpeculativeStats) (e : Rat) :
    (recomputeDerived s e).draftRounds = s.draftRounds := rfl

/-- `estimatedSpeedup` is recomputed as `max(1, avgAcceptanceLength)`, hence
never below 1. -/
lemma recomputeDerived_speedup (s : SpeculativeStats) (e : Rat) :
    1 ≤ (recomputeDerived s e).estimatedSpeedup :=
  le_max_left 1 _

/-- One loop iteration grows the generated-token count by at most
`cfg.draftLength + 1`. -/
lemma roundStep_totalGenerated_le (be : Backend) (cfg : SpeculativeConfig) (t : Rat)
    (st : GenState) :
    (roundStep be cfg t st).1.totalGenerated ≤ st.totalGenerated + (cfg.draftLength + 1) := by
  have hacc := specRound_accepted_length_le be cfg st.dIdx st.tIdx
  simp only [roundStep]
  repeat' split
  all_goals dsimp only
  all_goals omega

/-- Each loop iteration counts exactly one draft round. -/
lemma roundStep_draftRounds (be : Backend) (cfg : SpeculativeConfig) (t : Rat) (st : GenState) :
    (roundStep be cfg t st).1.stats.draftRounds = st.stats.draftRounds + 1 := by
  simp only [roundStep]
  repeat' split
  all_goals rfl

/-- The loop keeps `stats.totalTokens` equal to the generated-token counter. -/
lemma roundStep_totalTokens (be : Backend) (cfg : SpeculativeConfig) (t : Rat) (st : GenState)
    (h : st.stats.totalTokens = st.totalGenerated) :
    (roundStep be cfg t st).1.stats.totalTokens = (roundStep be cfg t st).1.totalGenerated := by
  simp only [roundStep]
  repeat' split
  all_goals try simp only [recomputeDerived_totalTokens]
  all_goals omega

/-- Every stats snapshot a loop iteration emits has `estimatedSpeedup ≥ 1`. -/
lemma roundStep_trace (be : Backend) (cfg : SpeculativeConfig) (t : Rat) (st : GenState)
    (h : ∀ s ∈ st.trace, 1 ≤ s.estimatedSpeedup) :
    ∀ s ∈ (roundStep be cfg t st).1.trace, 1 ≤ s.estimatedSpeedup := by
  simp only [roundStep]
  repeat' split
  all_goals try dsimp only
  any_goals exact h
  all_goals intro s hs
  all_goals rcases List.mem_append.1 hs with h1 | h1
  all_goals first
    | exact h s h1
    | (rw [List.mem_singleton.1 h1]; exact recomputeDerived_speedup _ _)

/-! ### Round-loop lemmas -/

/-- The round loop never starts an iteration at or above the `maxTokens`
budget. -/
lemma genLoop_stop (be : Backend) (ab : Nat → Bool) (cfg : SpeculativeConfig) (t : Rat)
    (fuel k : Nat) (st : GenState) (h : cfg.maxTokens ≤ st.totalGenerated) :
    genLoop be ab cfg t (fuel + 1) k st = some st := by
  simp only [genLoop]
  rw [if_neg]
  intro hc
  exact absurd hc.1 (Nat.not_lt.2 h)

/-- The generated-token count stays at or below `maxTokens + draftLength`
throughout the loop. -/
lemma genLoop_total_le (be : Backend) (ab : Nat → Bool) (cfg : SpeculativeConfig) (t : Rat) :
    ∀ fuel k (st st' : GenState), st.totalGenerated ≤ cfg.maxTokens + cfg.draftLength →
      genLoop be ab cfg t fuel k st = some st' →
      st'.totalGenerated ≤ cfg.maxTokens + cfg.draftLength
  | 0, k, st, st', _, h => by simp [genLoop] at h
  | fuel + 1, k, st, st', hb, h => by
    simp only [genLoop] at h
    split at h
    · next hg =>
      have hr := roundStep_totalGenerated_le be cfg t st
      have hr2 : (roundStep be cfg t st).1.totalGenerated ≤ cfg.maxTokens + cfg.draftLength := by
        omega
      split at h
      · exact genLoop_total_le be ab cfg t fuel (k + 1) _ st' hr2 h
      · cases h
        exact hr2
    · cases h
      exact hb

/-- The loop preserves `stats.totalTokens = totalGenerated`. -/
lemma genLoop_totalTokens (be : Backend) (ab : Nat → Bool) (cfg : SpeculativeConfig) (t : Rat) :
    ∀ fuel k (st st' : GenState), st.stats.totalTokens = st.totalGenerated →
      genLoop be ab cfg t fuel k st = some st' →
      st'.stats.totalTokens = st'.totalGenerated
  | 0, k, st, st', _, h => by simp [genLoop] at h
  | fuel + 1, k, st, st', hi, h => by
    simp only [genLoop] at h
    split at h
    · have hr := roundStep_totalTokens be cfg t st hi
      split at h
      · exact genLoop_totalTokens be ab cfg t fuel (k + 1) _ st' hr h
      · cases h
        exact hr
    · cases h
      exact hi

/-- The loop preserves "all emitted stats have `estimatedSpeedup ≥ 1`". -/
lemma genLoop_trace (be : Backend) (ab : Nat → Bool) (cfg : SpeculativeConfig) (t : Rat) :
    ∀ fuel k (st st' : GenState), (∀ s ∈ st.trace, 1 ≤ s.estimatedSpeedup) →
      genLoop be ab cfg t fuel k st = some st' →
      ∀ s ∈ st'.trace, 1 ≤ s.estimatedSpeedup
  | 0, k, st, st', _, h => by simp [genLoop] at h
  | fuel + 1, k, st, st', hi, h => by
    simp only [genLoop] at h
    split at h
    · have hr := roundStep_trace be cfg t st hi
      split at h
      · exact genLoop_trace be ab cfg t fuel (k + 1) _ st' hr h
      · cases h
        exact hr
    · cases h
      exact hi

/-- Once the abort flag is set (monotone schedule, set by round `kk`), the
loop can only have begun rounds at indices below `kk`. -/
lemma genLoop_rounds_le (be : Backend) (ab : Nat → Bool) (cfg : SpeculativeConfig) (t : Rat)
    (hmono : ∀ i j, i ≤ j → ab i = true → ab j = true) (kk : Nat) (hkk : ab kk = true) :
    ∀ fuel k (st st' : GenState), k ≤ kk →
      genLoop be ab cfg t fuel k st = some st' →
      st'.stats.draftRounds ≤ st.stats.draftRounds + (kk - k)
  | 0, k, st, st', _, h => by simp [genLoop] at h
  | fuel + 1, k, st, st', hk, h => by
    simp only [genLoop] at h
    split at h
    · next hg =>
      have hklt : k < kk := by
        rcases Nat.lt_or_ge k kk with hlt | hge
        · exact hlt
        · exact absurd (hmono kk k hge hkk) (by simp [hg.2])
      have hr := roundStep_draftRounds be cfg t st
      split at h
      · have ih := genLoop_rounds_le be ab cfg t hmono kk hkk fuel (k + 1) _ st' hklt h
        omega
      · cases h
        omega
    · cases h
      omega

/-- Accepted list of a round that drafted at least one token: the verify
phase's list, extended by the bonus token when one was kept. -/
lemma specRound_accepted_cases (be : Backend) (cfg : SpeculativeConfig) (dIdx tIdx : Nat)
    (h : (draftLoop be dIdx [] cfg.draftLength).draftTokens.isEmpty = false) :
    (specRound be cfg dIdx tIdx).accepted =
      (verifyLoop be (draftLoop be dIdx [] cfg.draftLength).draftTokens tIdx 0
        (draftLoop be dIdx [] cfg.draftLength).draftTokens.length).accepted ∨
    ∃ b, (specRound be cfg dIdx tIdx).accepted =
      (verifyLoop be (draftLoop be dIdx [] cfg.draftLength).draftTokens tIdx 0
        (draftLoop be dIdx [] cfg.draftLength).draftTokens.length).accepted ++ [b] := by
  simp only [specRound]
  rw [if_neg (by simp [h])]
  split
  · split
    · left
      rfl
    · right
      exact ⟨_, rfl⟩
  · left
    rfl

/-! ### Generate-level lemmas -/

/-- A successful `generate` run is a successful round-loop run followed by the
final stats recomputation (lines 319-328). -/
lemma generate_ok {eng : EngineState} {be : Backend} {sched : Nat → Bool}
    {cfg : SpeculativeConfig} {fuel : Nat} {out : GenOutput}
    (h : generate eng be sched cfg fuel = some (Except.ok out)) :
    ∃ st : GenState,
      genLoop be (fun k => false || sched k) cfg (be.clock 0) fuel 0 initialGenState = some st ∧
      out.stats = recomputeDerived st.stats (be.clock st.cIdx - be.clock 0) ∧
      out.trace = st.trace ++ [recomputeDerived st.stats (be.clock st.cIdx - be.clock 0)] ∧
      out.dCalls = st.dIdx ∧ out.tCalls = st.tIdx ∧ out.text = st.fullText := by
  simp only [generate] at h
  split at h
  · simp at h
  · split at h
    · simp at h
    · next st hst =>
      simp only [Option.some.injEq, Except.ok.injEq] at h
      subst h
      exact ⟨st, hst, rfl, rfl, rfl, rfl, rfl⟩

/-- When the guard passes but the round produces no draft token, the loop
breaks after counting the round (lines 248-251). -/
lemma genLoop_break_empty (be : Backend) (ab : Nat → Bool) (cfg : SpeculativeConfig) (t : Rat)
    (fuel k : Nat) (st : GenState)
    (hguard : st.totalGenerated < cfg.maxTokens ∧ ab k = false)
    (hempty : (specRound be cfg st.dIdx st.tIdx).draftTokens.isEmpty = true) :
    genLoop be ab cfg t (fuel + 1) k st =
      some { st with
        stats := { st.stats with draftRounds := st.stats.draftRounds + 1 },
        dIdx := st.dIdx + (specRound be cfg st.dIdx st.tIdx).draftCalls,
        tIdx := st.tIdx + (specRound be cfg st.dIdx st.tIdx).targetCalls } := by
  simp only [genLoop]
  rw [if_pos hguard]
  simp only [roundStep]
  rw [if_pos hempty]
  simp

/-! ### Concrete instances

Concrete backends, engine states and configurations used to exhibit concrete
executions: a backend whose target model always agrees with the draft model, a
backend whose target model always disagrees, and a backend whose draft model
immediately produces EOS. Token 5 and 7 are not EOS ids; token 2 is. -/

def beMatch : Backend :=
  { draftTok := fun _ _ _ => 5, targetTok := fun _ _ _ => 5,
    message := fun k => List.replicate (k + 1) 3, clock := fun _ => 0 }

def beMismatch : Backend :=
  { draftTok := fun _ _ _ => 5, targetTok := fun _ _ _ => 7,
    message := fun k => List.replicate (k + 1) 3, clock := fun _ => 0 }

def beEos : Backend :=
  { draftTok := fun _ _ _ => 2, targetTok := fun _ _ _ => 5,
    message := fun k => List.replicate (k + 1) 3, clock := fun _ => 0 }

def engLoaded : EngineState :=
  { hasEngine := true, draftModelId := some "draft-model", targetModelId := some "target-model",
    aborted := false }

def engEmpty : EngineState :=
  { hasEngine := false, draftModelId := none, targetModelId := none, aborted := false }

def cfg1 : SpeculativeConfig :=
  { draftLength := 1, maxTokens := 5, temperature := 0, acceptanceThreshold := 0 }

def cfg2 : SpeculativeConfig :=
  { draftLength := 2, maxTokens := 3, temperature := 0, acceptanceThreshold := 0 }

def cfgTight : SpeculativeConfig :=
  { draftLength := 2, maxTokens := 1, temperature := 0, acceptanceThreshold := 0 }

def stBeyond : GenState :=
  { initialGenState with totalGenerated := 5 }

def stMid : GenState :=
  { initialGenState with dIdx := 4, tIdx := 3 }

/-! ### Claims -/

/-- C9: in every round of `generate()`, no end-of-sequence token id is ever
appended to the round's accepted-token list — a draft EOS token ends the draft
phase before being stored, a mismatching target token that is EOS is
discarded, and a bonus token that is EOS is discarded — so EOS ids never
contribute to the accepted or total token counts. -/
theorem C9_no_eos_accepted (be : Backend) (cfg : SpeculativeConfig) (dIdx tIdx : Nat) :
    ∀ t ∈ (specRound be cfg dIdx tIdx).accepted, t ∉ EOS_TOKEN_IDS :=
  specRound_accepted_not_eos be cfg dIdx tIdx

/-- Witness for C9: token 5 is accepted in a concrete round and is not an EOS
id. -/
theorem C9_no_eos_accepted_witness :
    5 ∈ (specRound beMatch cfg2 0 0).accepted ∧ 5 ∉ EOS_TOKEN_IDS :=
  ⟨by decide, C9_no_eos_accepted beMatch cfg2 0 0 5 (by decide)⟩

/-- C2: in every round whose verify phase first mismatches at position `i` of
a draft list of length `L`, the rejected counter is incremented by exactly
`L - i`, so the round's exact-match acceptances plus its rejected-count
contribution equal `L`. -/
theorem C2_mismatch_accounting (be : Backend) (cfg : SpeculativeConfig) (dIdx tIdx i : Nat)
    (hi : i < (specRound be cfg dIdx tIdx).draftTokens.length)
    (hmis : targetAt be (specRound be cfg dIdx tIdx).draftTokens tIdx i ≠
      (specRound be cfg dIdx tIdx).draftTokens.getD i 0)
    (hmatch : ∀ j, j < i → targetAt be (specRound be cfg dIdx tIdx).draftTokens tIdx j =
      (specRound be cfg dIdx tIdx).draftTokens.getD j 0) :
    (specRound be cfg dIdx tIdx).matched = i ∧
    (specRound be cfg dIdx tIdx).rejectedAdd =
      (specRound be cfg dIdx tIdx).draftTokens.length - i ∧
    (specRound be cfg dIdx tIdx).matched + (specRound be cfg dIdx tIdx).rejectedAdd =
      (specRound be cfg dIdx tIdx).draftTokens.length := by
  rw [specRound_draftTokens] at hi hmis hmatch
  have hne : (draftLoop be dIdx [] cfg.draftLength).draftTokens.isEmpty = false := by
    cases hiE : (draftLoop be dIdx [] cfg.draftLength).draftTokens.isEmpty
    · rfl
    · rw [List.isEmpty_iff.mp hiE] at hi
      simp at hi
  rw [specRound_matched be cfg dIdx tIdx hne, specRound_rejectedAdd be cfg dIdx tIdx hne,
    specRound_draftTokens]
  obtain ⟨h1, h2, -, -⟩ :=
    verifyLoop_mismatch be (draftLoop be dIdx [] cfg.draftLength).draftTokens tIdx
      (draftLoop be dIdx [] cfg.draftLength).draftTokens.length 0 i (Nat.zero_le i)
      (by omega) (fun j _ hji => hmatch j hji) hmis
  refine ⟨by omega, by omega, by omega⟩

/-- Witness for C2: a concrete round whose first verification sample (7)
mismatches the first draft token (5) with a draft list of length 2: zero
matches and a rejected contribution of 2. -/
theorem C2_mismatch_accounting_witness :
    0 < (specRound beMismatch cfg2 0 0).draftTokens.length ∧
    ((specRound beMismatch cfg2 0 0).matched = 0 ∧
     (specRound beMismatch cfg2 0 0).rejectedAdd =
       (specRound beMismatch cfg2 0 0).draftTokens.length - 0 ∧
     (specRound beMismatch cfg2 0 0).matched + (specRound beMismatch cfg2 0 0).rejectedAdd =
       (specRound beMismatch cfg2 0 0).draftTokens.length) :=
  ⟨by decide,
   C2_mismatch_accounting beMismatch cfg2 0 0 0 (by decide) (by decide)
     (fun j hj => absurd hj (Nat.not_lt_zero j))⟩

/-- C7: in every round in which every draft token matches the target's
verification token, the round's accepted-token count is the draft-token count
or that count plus one (bonus token), never less. -/
theorem C7_full_match_count (be : Backend) (cfg : SpeculativeConfig) (dIdx tIdx : Nat)
    (h : (specRound be cfg dIdx tIdx).matched = (specRound be cfg dIdx tIdx).draftTokens.length) :
    (specRound be cfg dIdx tIdx).accepted.length =
      (specRound be cfg dIdx tIdx).draftTokens.length ∨
    (specRound be cfg dIdx tIdx).accepted.length =
      (specRound be cfg dIdx tIdx).draftTokens.length + 1 := by
  cases hE : (draftLoop be dIdx [] cfg.draftLength).draftTokens.isEmpty
  · have hL := verifyLoop_le be (draftLoop be dIdx [] cfg.draftLength).draftTokens tIdx
      (draftLoop be dIdx [] cfg.draftLength).draftTokens.length 0
    have hlen := verifyLoop_length be (draftLoop be dIdx [] cfg.draftLength).draftTokens tIdx
      (draftLoop be dIdx [] cfg.draftLength).draftTokens.length 0
    rw [specRound_matched be cfg dIdx tIdx hE, specRound_draftTokens] at h
    have hrepl : (verifyLoop be (draftLoop be dIdx [] cfg.draftLength).draftTokens tIdx 0
        (draftLoop be dIdx [] cfg.draftLength).draftTokens.length).replacementPushed = false := by
      cases hr : (verifyLoop be (draftLoop be dIdx [] cfg.draftLength).draftTokens tIdx 0
          (draftLoop be dIdx [] cfg.draftLength).draftTokens.length).replacementPushed
      · rfl
      · rw [hr] at hL
        simp at hL
        omega
    have hVlen : (verifyLoop be (draftLoop be dIdx [] cfg.draftLength).draftTokens tIdx 0
        (draftLoop be dIdx [] cfg.draftLength).draftTokens.length).accepted.length =
        (draftLoop be dIdx [] cfg.draftLength).draftTokens.length := by
      rw [hlen, hrepl]
      simp [h]
    rcases specRound_accepted_cases be cfg dIdx tIdx hE with hc | ⟨b, hc⟩
    · left
      rw [hc, hVlen, specRound_draftTokens]
    · right
      rw [hc, List.length_append, List.length_singleton, hVlen, specRound_draftTokens]
  · rw [specRound_empty be cfg dIdx tIdx hE]
    left
    dsimp only
    rw [List.isEmpty_iff.mp hE]

/-- Witness for C7: a concrete fully-matching round of draft length 2
accepting 3 tokens (2 matches plus the bonus). -/
theorem C7_full_match_count_witness :
    (specRound beMatch cfg2 0 0).matched = (specRound beMatch cfg2 0 0).draftTokens.length ∧
    ((specRound beMatch cfg2 0 0).accepted.length =
       (specRound beMatch cfg2 0 0).draftTokens.length ∨
     (specRound beMatch cfg2 0 0).accepted.length =
       (specRound beMatch cfg2 0 0).draftTokens.length + 1) :=
  ⟨by decide, C7_full_match_count beMatch cfg2 0 0 (by decide)⟩

/-- Counterexample to C1 as stated: in a concrete round with a single draft
token (5) and a mismatching non-EOS verification token (7), the accepted list
still reaches the draft length, so a bonus token IS sampled from the target
model even though the only draft position mismatched. -/
theorem C1_counterexample :
    (specRound beMismatch cfg1 0 0).bonusSampled = true ∧
    (specRound beMismatch cfg1 0 0).matched = 0 ∧
    (specRound beMismatch cfg1 0 0).draftTokens.length = 1 := by
  decide

/-- C1 (amended): a bonus token is sampled from the target model iff the round
drafted at least one token, the draft did not hit end-of-sequence, and either
every draft position matched exactly or the single mismatch occurred at the
final draft position with a non-EOS replacement kept (so the accepted list
still reached the draft length). -/
theorem C1_bonus_characterization (be : Backend) (cfg : SpeculativeConfig) (dIdx tIdx : Nat) :
    (specRound be cfg dIdx tIdx).bonusSampled = true ↔
      ((specRound be cfg dIdx tIdx).draftTokens ≠ [] ∧
       (specRound be cfg dIdx tIdx).draftHitEos = false ∧
       ((specRound be cfg dIdx tIdx).matched = (specRound be cfg dIdx tIdx).draftTokens.length ∨
        ((specRound be cfg dIdx tIdx).replacementPushed = true ∧
         (specRound be cfg dIdx tIdx).matched + 1 =
           (specRound be cfg dIdx tIdx).draftTokens.length))) := by
  cases hE : (draftLoop be dIdx [] cfg.draftLength).draftTokens.isEmpty
  · have hbs := specRound_bonusSampled be cfg dIdx tIdx hE
    have hlen := verifyLoop_length be (draftLoop be dIdx [] cfg.draftLength).draftTokens tIdx
      (draftLoop be dIdx [] cfg.draftLength).draftTokens.length 0
    have hle := verifyLoop_le be (draftLoop be dIdx [] cfg.draftLength).draftTokens tIdx
      (draftLoop be dIdx [] cfg.draftLength).draftTokens.length 0
    have hne : (draftLoop be dIdx [] cfg.draftLength).draftTokens ≠ [] := by
      intro hnil
      rw [hnil] at hE
      simp at hE
    rw [hbs, specRound_matched be cfg dIdx tIdx hE,
      specRound_replacementPushed be cfg dIdx tIdx hE, specRound_draftTokens,
      specRound_draftHitEos]
    constructor
    · rintro ⟨hlenL, hEos⟩
      refine ⟨hne, hEos, ?_⟩
      rw [hlen] at hlenL
      cases hr : (verifyLoop be (draftLoop be dIdx [] cfg.draftLength).draftTokens tIdx 0
          (draftLoop be dIdx [] cfg.draftLength).draftTokens.length).replacementPushed
      · left
        rw [hr] at hlenL
        simpa using hlenL
      · right
        rw [hr] at hlenL
        exact ⟨rfl, by simpa using hlenL⟩
    · rintro ⟨-, hEos, hcase⟩
      refine ⟨?_, hEos⟩
      rw [hlen]
      rcases hcase with hm | ⟨hr, hm⟩
      · cases hr : (verifyLoop be (draftLoop be dIdx [] cfg.draftLength).draftTokens tIdx 0
            (draftLoop be dIdx [] cfg.draftLength).draftTokens.length).replacementPushed
        · simpa using hm
        · rw [hr, hm] at hle
          simp at hle
      · rw [hr]
        simp
        omega
  · rw [specRound_empty be cfg dIdx tIdx hE]
    dsimp only
    rw [List.isEmpty_iff.mp hE]
    simp

/-- Counterexample to C4 as stated: `resetChat()` called with no engine and no
resident model pair does not fail — it performs no backend call and returns
successfully. -/
theorem C4_counterexample : resetChat engEmpty = Except.ok [] := rfl

/-- C4 (amended): `generate()` fails with the NotLoaded error whenever no
engine or either model id is missing, but `resetChat()` never fails with
NotLoaded — it silently skips the reset calls for whatever is missing. -/
theorem C4_not_loaded :
    (∀ (eng : EngineState) (be : Backend) (sched : Nat → Bool) (cfg : SpeculativeConfig)
        (fuel : Nat),
        (eng.hasEngine = false ∨ eng.draftModelId = none ∨ eng.targetModelId = none) →
        generate eng be sched cfg fuel = some (Except.error GenError.notLoaded)) ∧
    (∀ eng : EngineState, resetChat eng ≠ Except.error GenError.notLoaded) := by
  constructor
  · intro eng be sched cfg fuel h
    simp only [generate]
    rw [if_pos h]
  · intro eng
    simp [resetChat]

/-- Witness for C4 (amended): with nothing resident, `generate()` returns the
NotLoaded error and `resetChat()` does not. -/
theorem C4_not_loaded_witness :
    (engEmpty.hasEngine = false ∨ engEmpty.draftModelId = none ∨
      engEmpty.targetModelId = none) ∧
    generate engEmpty beMatch (fun _ => false) cfg2 3 =
      some (Except.error GenError.notLoaded) ∧
    resetChat engEmpty ≠ Except.error GenError.notLoaded :=
  ⟨Or.inl rfl, C4_not_loaded.1 engEmpty beMatch (fun _ => false) cfg2 3 (Or.inl rfl),
   C4_not_loaded.2 engEmpty⟩

/-- C10: `generate()` clears the abort flag on entry (line 202), so an
`abort()` issued before the call has no effect on the generation it starts:
the run is identical whether or not the flag was set beforehand. Only the
in-flight abort schedule (`sched`) can stop it. -/
theorem C10_abort_cleared (eng : EngineState) (be : Backend) (sched : Nat → Bool)
    (cfg : SpeculativeConfig) (fuel : Nat) :
    generate (abort eng) be sched cfg fuel = generate eng be sched cfg fuel := by
  cases eng
  rfl

/-- Counterexample to C3 as stated: with `maxTokens = 1` and `draftLength = 2`
a concrete run returns `stats.totalTokens = 3 > maxTokens` — one fully
accepted round (2 matches plus a bonus) is credited wholesale, overshooting
the budget. -/
theorem C3_counterexample :
    generate engLoaded beMatch (fun _ => false) cfgTight 5 =
      some (Except.ok (okOutput (generate engLoaded beMatch (fun _ => false) cfgTight 5))) ∧
    (okOutput (generate engLoaded beMatch (fun _ => false) cfgTight 5)).stats.totalTokens = 3 ∧
    cfgTight.maxTokens = 1 :=
  ⟨rfl, rfl, rfl⟩

/-- C3 (amended): the round loop repeats only while the generated-token count
is strictly below `maxTokens` (an iteration starting at or above the budget
returns immediately), and the final `stats.totalTokens` never exceeds
`maxTokens + draftLength` — the overshoot of the last round is bounded by the
round's maximal acceptance, not clamped to `maxTokens`. -/
theorem C3_budget_bound :
    (∀ (be : Backend) (ab : Nat → Bool) (cfg : SpeculativeConfig) (t : Rat) (fuel k : Nat)
        (st : GenState), cfg.maxTokens ≤ st.totalGenerated →
        genLoop be ab cfg t (fuel + 1) k st = some st) ∧
    (∀ (eng : EngineState) (be : Backend) (sched : Nat → Bool) (cfg : SpeculativeConfig)
        (fuel : Nat) (out : GenOutput),
        generate eng be sched cfg fuel = some (Except.ok out) →
        out.stats.totalTokens ≤ cfg.maxTokens + cfg.draftLength) := by
  constructor
  · exact fun be ab cfg t fuel k st h => genLoop_stop be ab cfg t fuel k st h
  · intro eng be sched cfg fuel out h
    obtain ⟨st, hst, hstats, -, -, -, -⟩ := generate_ok h
    have h1 := genLoop_total_le be _ cfg (be.clock 0) fuel 0 initialGenState st
      (Nat.zero_le _) hst
    have h2 := genLoop_totalTokens be _ cfg (be.clock 0) fuel 0 initialGenState st rfl hst
    rw [hstats, recomputeDerived_totalTokens]
    omega

/-- Witness for C3 (amended): the loop is a no-op from a state already at the
budget, and a concrete successful run stays within `maxTokens + draftLength`. -/
theorem C3_budget_bound_witness :
    genLoop beMatch (fun _ => false) cfg2 0 1 0 stBeyond = some stBeyond ∧
    (okOutput (generate engLoaded beMatch (fun _ => false) cfg2 5)).stats.totalTokens ≤
      cfg2.maxTokens + cfg2.draftLength :=
  ⟨C3_budget_bound.1 beMatch (fun _ => false) cfg2 0 0 0 stBeyond (by decide),
   C3_budget_bound.2 engLoaded beMatch (fun _ => false) cfg2 5 _ rfl⟩

/-- C5: every stats snapshot emitted to the progress callback during a
`generate()` run and the final returned stats carry
`estimatedSpeedup ≥ 1`. -/
theorem C5_speedup_lower_bound (eng : EngineState) (be : Backend) (sched : Nat → Bool)
    (cfg : SpeculativeConfig) (fuel : Nat) (out : GenOutput)
    (h : generate eng be sched cfg fuel = some (Except.ok out)) :
    (∀ s ∈ out.trace, 1 ≤ s.estimatedSpeedup) ∧ 1 ≤ out.stats.estimatedSpeedup := by
  obtain ⟨st, hst, hstats, htrace, -, -, -⟩ := generate_ok h
  have h1 := genLoop_trace be _ cfg (be.clock 0) fuel 0 initialGenState st
    (by
      intro s hs
      have hse : s = emptyStats := by simpa [initialGenState] using hs
      rw [hse]
      exact le_refl 1)
    hst
  constructor
  · rw [htrace]
    intro s hs
    rcases List.mem_append.1 hs with h2 | h2
    · exact h1 s h2
    · rw [List.mem_singleton.1 h2]
      exact recomputeDerived_speedup _ _
  · rw [hstats]
    exact recomputeDerived_speedup _ _

/-- Witness for C5: a concrete successful run whose final stats satisfy the
bound. -/
theorem C5_speedup_lower_bound_witness :
    generate engLoaded beMatch (fun _ => false) cfg2 5 =
      some (Except.ok (okOutput (generate engLoaded beMatch (fun _ => false) cfg2 5))) ∧
    1 ≤ (okOutput (generate engLoaded beMatch (fun _ => false) cfg2 5)).stats.estimatedSpeedup :=
  ⟨rfl, (C5_speedup_lower_bound engLoaded beMatch (fun _ => false) cfg2 5 _ rfl).2⟩

/-- A round whose very first draft sample is EOS: the draft phase stores
nothing, records `draftHitEos`, and the round performs no verification — no
target-model call at all. -/
lemma specRound_eos_first (be : Backend) (cfg : SpeculativeConfig) (dIdx tIdx : Nat)
    (hdl : 0 < cfg.draftLength) (heos : be.draftTok dIdx [] true ∈ EOS_TOKEN_IDS) :
    specRound be cfg dIdx tIdx =
      { draftTokens := [], draftHitEos := true, accepted := [], matched := 0, rejectedAdd := 0,
        replacementPushed := false, bonusSampled := false, bonusAccepted := false,
        draftCalls := 1, targetCalls := 0 } := by
  obtain ⟨m, hm⟩ : ∃ m, cfg.draftLength = m + 1 := ⟨cfg.draftLength - 1, by omega⟩
  have hdraft : draftLoop be dIdx [] cfg.draftLength =
      { draftTokens := [], draftHitEos := true, calls := 1 } := by
    rw [hm]
    exact draftLoop_eos_first be dIdx m heos
  have hEmptyD : (draftLoop be dIdx [] cfg.draftLength).draftTokens.isEmpty = true := by
    rw [hdraft]
    rfl
  rw [specRound_empty be cfg dIdx tIdx hEmptyD, hdraft]

/-- C6: whenever the very first token sampled in a round's draft phase is an
end-of-sequence token, `generate()` terminates the entire generation at once
with no verification of that round. Part one covers every round — from any
loop state whose next draft sample is EOS, the round drafts nothing, makes
zero target-model calls, and the loop returns right after it no matter how
much fuel remains. Part two is the first-round case: the run makes no
target-model call at all, exactly one round ever begins, and the returned
`totalTokens` is 0 with empty text. -/
theorem C6_eos_first_token :
    (∀ (be : Backend) (ab : Nat → Bool) (cfg : SpeculativeConfig) (t : Rat) (fuel k : Nat)
        (st : GenState),
        0 < cfg.draftLength →
        be.draftTok st.dIdx [] true ∈ EOS_TOKEN_IDS →
        st.totalGenerated < cfg.maxTokens →
        ab k = false →
        (specRound be cfg st.dIdx st.tIdx).draftTokens = [] ∧
        (specRound be cfg st.dIdx st.tIdx).targetCalls = 0 ∧
        genLoop be ab cfg t (fuel + 1) k st =
          some { st with
            stats := { st.stats with draftRounds := st.stats.draftRounds + 1 },
            dIdx := st.dIdx + 1 }) ∧
    (∀ (eng : EngineState) (be : Backend) (sched : Nat → Bool) (cfg : SpeculativeConfig)
        (fuel : Nat) (out : GenOutput),
        0 < cfg.draftLength →
        be.draftTok 0 [] true ∈ EOS_TOKEN_IDS →
        0 < cfg.maxTokens →
        sched 0 = false →
        generate eng be sched cfg fuel = some (Except.ok out) →
        out.stats.totalTokens = 0 ∧ out.stats.draftRounds = 1 ∧ out.tCalls = 0 ∧
          out.text = []) := by
  constructor
  · intro be ab cfg t fuel k st hdl heos hlt hab
    have hspec := specRound_eos_first be cfg st.dIdx st.tIdx hdl heos
    refine ⟨by rw [hspec], by rw [hspec], ?_⟩
    have hround : (specRound be cfg st.dIdx st.tIdx).draftTokens.isEmpty = true := by
      rw [hspec]
      rfl
    have hbreak := genLoop_break_empty be ab cfg t fuel k st ⟨hlt, hab⟩ hround
    rw [hbreak, hspec]
    rfl
  · intro eng be sched cfg fuel out hdl heos hmax hsched h
    obtain ⟨st, hst, hstats, htrace, hd, ht, htext⟩ := generate_ok h
    have hspec := specRound_eos_first be cfg 0 0 hdl heos
    cases fuel with
    | zero => simp [genLoop] at hst
    | succ f =>
      have hround : (specRound be cfg initialGenState.dIdx
          initialGenState.tIdx).draftTokens.isEmpty = true := by
        show (specRound be cfg 0 0).draftTokens.isEmpty = true
        rw [hspec]
        rfl
      have hbreak := genLoop_break_empty be (fun k => false || sched k) cfg (be.clock 0) f 0
        initialGenState ⟨hmax, by simp [hsched]⟩ hround
      rw [hbreak] at hst
      have hRst := Option.some.inj hst
      subst hRst
      refine ⟨?_, ?_, ?_, ?_⟩
      · rw [hstats, recomputeDerived_totalTokens]
        rfl
      · rw [hstats, recomputeDerived_draftRounds]
        rfl
      · rw [ht]
        show 0 + (specRound be cfg 0 0).targetCalls = 0
        rw [hspec]
        rfl
      · rw [htext]
        rfl

/-- Witness for C6: at a non-initial round state (draft call index 4, target
call index 3) an EOS first sample ends the loop with no target call, and a
full concrete run whose first draft sample is EOS id 2 terminates with no
target calls and zero tokens. -/
theorem C6_eos_first_token_witness :
    (beEos.draftTok stMid.dIdx [] true ∈ EOS_TOKEN_IDS ∧
     (specRound beEos cfg2 stMid.dIdx stMid.tIdx).draftTokens = [] ∧
     (specRound beEos cfg2 stMid.dIdx stMid.tIdx).targetCalls = 0 ∧
     genLoop beEos (fun _ => false) cfg2 0 5 1 stMid =
       some { stMid with
         stats := { stMid.stats with draftRounds := stMid.stats.draftRounds + 1 },
         dIdx := stMid.dIdx + 1 }) ∧
    (beEos.draftTok 0 [] true ∈ EOS_TOKEN_IDS ∧
     generate engLoaded beEos (fun _ => false) cfg2 3 =
       some (Except.ok (okOutput (generate engLoaded beEos (fun _ => false) cfg2 3))) ∧
     ((okOutput (generate engLoaded beEos (fun _ => false) cfg2 3)).stats.totalTokens = 0 ∧
      (okOutput (generate engLoaded beEos (fun _ => false) cfg2 3)).stats.draftRounds = 1 ∧
      (okOutput (generate engLoaded beEos (fun _ => false) cfg2 3)).tCalls = 0 ∧
      (okOutput (generate engLoaded beEos (fun _ => false) cfg2 3)).text = [])) := by
  have ha := C6_eos_first_token.1 beEos (fun _ => false) cfg2 0 4 1 stMid (by decide) (by decide)
    (by decide) rfl
  exact ⟨⟨by decide, ha.1, ha.2.1, ha.2.2⟩,
    ⟨by decide, rfl,
     C6_eos_first_token.2 engLoaded beEos (fun _ => false) cfg2 3 _ (by decide) (by decide)
       (by decide) rfl rfl⟩⟩

/-- C8: the abort flag is consulted at the top of each round, so once
`abort()` has been called (a monotone in-flight schedule that is set by round
`k`), no round with index `≥ k` begins: the whole run counts at most `k`
draft rounds. -/
theorem C8_abort_stops_rounds (eng : EngineState) (be : Backend) (sched : Nat → Bool)
    (cfg : SpeculativeConfig) (fuel k : Nat) (out : GenOutput)
    (hmono : ∀ i j, i ≤ j → sched i = true → sched j = true)
    (hk : sched k = true)
    (h : generate eng be sched cfg fuel = some (Except.ok out)) :
    out.stats.draftRounds ≤ k := by
  obtain ⟨st, hst, hstats, -, -, -, -⟩ := generate_ok h
  have hmono' : ∀ i j, i ≤ j → (false || sched i) = true → (false || sched j) = true := by
    intro i j hij hi
    simp only [Bool.false_or] at hi ⊢
    exact hmono i j hij hi
  have hk' : (false || sched k) = true := by simp [hk]
  have h1 := genLoop_rounds_le be (fun x => false || sched x) cfg (be.clock 0) hmono' k hk'
    fuel 0 initialGenState st (Nat.zero_le k) hst
  rw [hstats, recomputeDerived_draftRounds]
  simpa [initialGenState, emptyStats] using h1

/-- Witness for C8: with the abort flag schedule already set at round 0, a
concrete run begins zero rounds. -/
theorem C8_abort_stops_rounds_witness :
    generate engLoaded beMatch (fun _ => true) cfg2 1 =
      some (Except.ok (okOutput (generate engLoaded beMatch (fun _ => true) cfg2 1))) ∧
    (okOutput (generate engLoaded beMatch (fun _ => true) cfg2 1)).stats.draftRounds ≤ 0 :=
  ⟨rfl,
   C8_abort_stops_rounds engLoaded beMatch (fun _ => true) cfg2 1 0 _
     (fun _ _ _ hi => hi) rfl rfl⟩

end SpecDec
